import Mathlib

/-!
Verification of the dir_spec repository: a cross-platform directory-path
resolution library.  The repository ships several variants of the same API:

* `lib.rs` — the compiled crate root: an Option-policy `Dir` struct whose
  methods check the XDG override variable (accepting only absolute values)
  and fall back to platform defaults.  Embedded here as namespace `DirOpt`,
  with the compile-time `cfg(target_os)` switch made an explicit `Platform`
  argument.
* `dir.rs` — a Result-policy historical variant (`eyre::Result`), embedded
  as namespace `DirRes` over `Except String`.
* `linux.rs`, `macos.rs`, `windows.rs`, `xdg.rs` — per-platform free
  functions, embedded as namespaces `LinuxMod`, `MacosMod`, `WindowsMod`
  and `Xdg`.

The process state a call reads is captured by `Env`: the environment
variable map (assumed valid UTF-8, so `env::var` and `env::var_os`
coincide), the user-database home field consulted by `getpwuid` /
the `std::env::home_dir` fallback (`none` models lookup failure or a
non-textual field), the Windows profile-directory OS fallback, and the
effective uid.

Paths are modelled as strings.  `isAbsolute` models Rust's
`std::path::Path::is_absolute` (Unix: leading `/`; Windows: drive prefix
`X:\` or `X:/`, or a UNC prefix `\\`).  `pathJoin` models
`std::path::PathBuf::join` for the separators actually used by the code:
an absolute right operand replaces the base, otherwise the platform's
primary separator is inserted unless the base is empty or already ends
with it.
-/

/-- The compile-time platform family (`cfg(target_os = ...)`). -/
inductive Platform where
  | linux
  | macos
  | windows
deriving DecidableEq

/-- Process state read by the library: environment variables (UTF-8),
the user-database home field, the Windows profile-directory fallback,
and the effective uid. -/
structure Env where
  vars : String → Option String
  userDbHome : Option String
  winProfileDir : Option String
  uid : Nat

/-- Unix absoluteness on the character list of a path: leading slash. -/
def isAbsUnixL (l : List Char) : Bool :=
  match l with
  | c :: _ => c = '/'
  | [] => false

/-- Windows absoluteness on the character list of a path: a UNC prefix
(two backslashes) or a disk prefix (letter, colon, separator). -/
def isAbsWinL (l : List Char) : Bool :=
  match l with
  | c0 :: c1 :: c2 :: _ =>
      (c0 = '\\' && c1 = '\\') || (c0.isAlpha && c1 = ':' && (c2 = '\\' || c2 = '/'))
  | c0 :: c1 :: [] => c0 = '\\' && c1 = '\\'
  | _ => false

/-- Model of Rust `Path::is_absolute` for the given platform. -/
def isAbsolute (p : Platform) (s : String) : Bool :=
  match p with
  | .windows => isAbsWinL s.data
  | _ => isAbsUnixL s.data

/-- The platform's primary path separator. -/
def sepChar (p : Platform) : Char :=
  match p with
  | .windows => '\\'
  | _ => '/'

/-- The platform's primary path separator, as a one-character string. -/
def sepStr (p : Platform) : String :=
  String.mk [sepChar p]

/-- Whether a path already ends with the platform's primary separator. -/
def endsWithSep (p : Platform) (s : String) : Bool :=
  match s.data.getLast? with
  | some c => c = sepChar p
  | none => false

/-- Model of Rust `PathBuf::join` (push): an absolute right operand
replaces the base; otherwise the separator is inserted unless the base is
empty or already ends with it. -/
def pathJoin (p : Platform) (base sub : String) : String :=
  if isAbsolute p sub then sub
  else if base = "" then sub
  else if endsWithSep p base then base ++ sub
  else base ++ sepStr p ++ sub

/-- Structural equality on `Except String String` results. -/
instance : DecidableEq (Except String String) := fun x y =>
  match x, y with
  | .ok a, .ok b =>
      if h : a = b then isTrue (by rw [h]) else isFalse (fun hc => h (by injection hc))
  | .error a, .error b =>
      if h : a = b then isTrue (by rw [h]) else isFalse (fun hc => h (by injection hc))
  | .ok _, .error _ => isFalse (fun hc => by injection hc)
  | .error _, .ok _ => isFalse (fun hc => by injection hc)

/-- Rust `Option::or_else` on already-evaluated (pure) alternatives. -/
def orO (a b : Option String) : Option String :=
  match a with
  | some x => some x
  | none => b

/-- Model of `std::env::home_dir`: on Unix the `HOME` variable when set and
non-empty, else the user-database lookup; on Windows the `USERPROFILE`
variable when set and non-empty, else the OS profile-directory call. -/
def stdHomeDir (p : Platform) (e : Env) : Option String :=
  match p with
  | .windows =>
      orO ((e.vars ("USERPROFILE")).filter (fun s => !(s == ""))) e.winProfileDir
  | _ =>
      orO ((e.vars ("HOME")).filter (fun s => !(s == ""))) e.userDbHome

namespace Xdg

/-- src/xdg.rs: the override variable names. -/
def BIN_HOME : String := "XDG_BIN_HOME"
def CACHE_HOME : String := "XDG_CACHE_HOME"
def CONFIG_HOME : String := "XDG_CONFIG_HOME"
def DATA_HOME : String := "XDG_DATA_HOME"
def DESKTOP_DIR : String := "XDG_DESKTOP_DIR"
def DOCUMENTS_DIR : String := "XDG_DOCUMENTS_DIR"
def DOWNLOAD_DIR : String := "XDG_DOWNLOAD_DIR"
def MUSIC_DIR : String := "XDG_MUSIC_DIR"
def PICTURES_DIR : String := "XDG_PICTURES_DIR"
def PUBLICSHARE_DIR : String := "XDG_PUBLICSHARE_DIR"
def RUNTIME_DIR : String := "XDG_RUNTIME_DIR"
def STATE_HOME : String := "XDG_STATE_HOME"
def TEMPLATES_DIR : String := "XDG_TEMPLATES_DIR"
def VIDEOS_DIR : String := "XDG_VIDEOS_DIR"

/-- src/xdg.rs `resolve_path`: the variable's value filtered through
`is_absolute`. -/
def resolve_path (p : Platform) (key : String) (e : Env) : Option String :=
  (e.vars key).filter (fun v => isAbsolute p v)

/-- src/xdg.rs `resolve_path_with_fallback`: the override, or else
`home_dir().map(|p| p.join(default))`. -/
def resolve_path_with_fallback (p : Platform) (key default : String) (e : Env) : Option String :=
  orO (resolve_path p key e) ((stdHomeDir p e).map (fun h => pathJoin p h default))

end Xdg

namespace LinuxMod

/-- src/linux.rs `bin_home`. -/
def bin_home (e : Env) : Option String :=
  Xdg.resolve_path_with_fallback .linux Xdg.BIN_HOME (".local/bin") e

/-- src/linux.rs `cache_home`. -/
def cache_home (e : Env) : Option String :=
  Xdg.resolve_path_with_fallback .linux Xdg.CACHE_HOME (".cache") e

/-- src/linux.rs `config_home`. -/
def config_home (e : Env) : Option String :=
  Xdg.resolve_path_with_fallback .linux Xdg.CONFIG_HOME (".config") e

/-- src/linux.rs `config_local`. -/
def config_local (e : Env) : Option String :=
  config_home e

/-- src/linux.rs `data_home`. -/
def data_home (e : Env) : Option String :=
  Xdg.resolve_path_with_fallback .linux Xdg.DATA_HOME (".local/share") e

/-- src/linux.rs `data_local`. -/
def data_local (e : Env) : Option String :=
  data_home e

/-- src/linux.rs `desktop`. -/
def desktop (e : Env) : Option String :=
  Xdg.resolve_path_with_fallback .linux Xdg.DESKTOP_DIR ("Desktop") e

/-- src/linux.rs `documents`. -/
def documents (e : Env) : Option String :=
  Xdg.resolve_path_with_fallback .linux Xdg.DOCUMENTS_DIR ("Documents") e

/-- src/linux.rs `downloads`. -/
def downloads (e : Env) : Option String :=
  Xdg.resolve_path_with_fallback .linux Xdg.DOWNLOAD_DIR ("Downloads") e

/-- src/linux.rs `fonts`. -/
def fonts (e : Env) : Option String :=
  (stdHomeDir .linux e).map (fun h => pathJoin .linux h (".local/share/fonts"))

/-- src/linux.rs `music`. -/
def music (e : Env) : Option String :=
  Xdg.resolve_path_with_fallback .linux Xdg.MUSIC_DIR ("Music") e

/-- src/linux.rs `pictures`. -/
def pictures (e : Env) : Option String :=
  Xdg.resolve_path_with_fallback .linux Xdg.PICTURES_DIR ("Pictures") e

/-- src/linux.rs `preferences`. -/
def preferences (e : Env) : Option String :=
  config_home e

/-- src/linux.rs `publicshare`. -/
def publicshare (e : Env) : Option String :=
  Xdg.resolve_path_with_fallback .linux Xdg.PUBLICSHARE_DIR ("Public") e

/-- src/linux.rs `runtime`. -/
def runtime (e : Env) : Option String :=
  orO (Xdg.resolve_path .linux Xdg.RUNTIME_DIR e)
    (orO (e.vars ("TMPDIR")) (some ("/tmp")))

/-- src/linux.rs `state_home`. -/
def state_home (e : Env) : Option String :=
  Xdg.resolve_path_with_fallback .linux Xdg.STATE_HOME (".local/state") e

/-- src/linux.rs `templates`. -/
def templates (e : Env) : Option String :=
  Xdg.resolve_path_with_fallback .linux Xdg.TEMPLATES_DIR ("Templates") e

/-- src/linux.rs `videos`. -/
def videos (e : Env) : Option String :=
  Xdg.resolve_path_with_fallback .linux Xdg.VIDEOS_DIR ("Videos") e

end LinuxMod

namespace MacosMod

/-- src/macos.rs `APP_SUPPORT`. -/
def APP_SUPPORT : String := "Library/Application Support"

/-- src/macos.rs `bin_home`. -/
def bin_home (e : Env) : Option String :=
  Xdg.resolve_path_with_fallback .macos Xdg.BIN_HOME (".local/bin") e

/-- src/macos.rs `cache_home`. -/
def cache_home (e : Env) : Option String :=
  Xdg.resolve_path_with_fallback .macos Xdg.CACHE_HOME ("Library/Caches") e

/-- src/macos.rs `config_home`. -/
def config_home (e : Env) : Option String :=
  Xdg.resolve_path_with_fallback .macos Xdg.CONFIG_HOME APP_SUPPORT e

/-- src/macos.rs `config_local`. -/
def config_local (e : Env) : Option String :=
  config_home e

/-- src/macos.rs `data_home`. -/
def data_home (e : Env) : Option String :=
  Xdg.resolve_path_with_fallback .macos Xdg.DATA_HOME APP_SUPPORT e

/-- src/macos.rs `data_local`. -/
def data_local (e : Env) : Option String :=
  data_home e

/-- src/macos.rs `desktop`. -/
def desktop (e : Env) : Option String :=
  Xdg.resolve_path_with_fallback .macos Xdg.DESKTOP_DIR ("Desktop") e

/-- src/macos.rs `documents`. -/
def documents (e : Env) : Option String :=
  Xdg.resolve_path_with_fallback .macos Xdg.DOCUMENTS_DIR ("Documents") e

/-- src/macos.rs `downloads`. -/
def downloads (e : Env) : Option String :=
  Xdg.resolve_path_with_fallback .macos Xdg.DOWNLOAD_DIR ("Downloads") e

/-- src/macos.rs `fonts`. -/
def fonts (e : Env) : Option String :=
  (stdHomeDir .macos e).map (fun h => pathJoin .macos h ("Library/Fonts"))

/-- src/macos.rs `music`. -/
def music (e : Env) : Option String :=
  Xdg.resolve_path_with_fallback .macos Xdg.MUSIC_DIR ("Music") e

/-- src/macos.rs `pictures`. -/
def pictures (e : Env) : Option String :=
  Xdg.resolve_path_with_fallback .macos Xdg.PICTURES_DIR ("Pictures") e

/-- src/macos.rs `preferences`. -/
def preferences (e : Env) : Option String :=
  (stdHomeDir .macos e).map (fun h => pathJoin .macos h ("Library/Preferences"))

/-- src/macos.rs `publicshare`. -/
def publicshare (e : Env) : Option String :=
  Xdg.resolve_path_with_fallback .macos Xdg.PUBLICSHARE_DIR ("Public") e

/-- src/macos.rs `runtime`. -/
def runtime (e : Env) : Option String :=
  orO (Xdg.resolve_path .macos Xdg.RUNTIME_DIR e)
    (orO (e.vars ("TMPDIR")) (some ("/tmp")))

/-- src/macos.rs `state_home`. -/
def state_home (e : Env) : Option String :=
  Xdg.resolve_path_with_fallback .macos Xdg.STATE_HOME APP_SUPPORT e

/-- src/macos.rs `templates`. -/
def templates (e : Env) : Option String :=
  Xdg.resolve_path_with_fallback .macos Xdg.TEMPLATES_DIR ("Templates") e

/-- src/macos.rs `videos`. -/
def videos (e : Env) : Option String :=
  Xdg.resolve_path_with_fallback .macos Xdg.VIDEOS_DIR ("Movies") e

end MacosMod

namespace WindowsMod

/-- src/windows.rs `APPDATA`. -/
def APPDATA : String := "APPDATA"

/-- src/windows.rs `LOCALAPPDATA`. -/
def LOCALAPPDATA : String := "LOCALAPPDATA"

/-- src/windows.rs `USERPROFILE`. -/
def USERPROFILE : String := "USERPROFILE"

/-- src/windows.rs `resolve_path`: the raw value of an environment
variable. -/
def resolve_path (key : String) (e : Env) : Option String :=
  e.vars key

/-- src/windows.rs `resolve_xdg_path_with_fallback`: the XDG override, or
else the raw value of the Windows environment variable. -/
def resolve_xdg_path_with_fallback (xdg_key key : String) (e : Env) : Option String :=
  orO (Xdg.resolve_path .windows xdg_key e) (e.vars key)

/-- src/windows.rs `resolve_xdg_path_with_fallback_and_sub_dir`: the
override-or-fallback result, with the sub-directory joined onto whichever
branch produced it. -/
def resolve_xdg_path_with_fallback_and_sub_dir (xdg_key key sub_dir : String) (e : Env) : Option String :=
  (resolve_xdg_path_with_fallback xdg_key key e).map (fun pa => pathJoin .windows pa sub_dir)

/-- src/windows.rs `bin_home`. -/
def bin_home (e : Env) : Option String :=
  (resolve_path LOCALAPPDATA e).map (fun pa => pathJoin .windows pa ("Programs"))

/-- src/windows.rs `cache_home`. -/
def cache_home (e : Env) : Option String :=
  resolve_xdg_path_with_fallback Xdg.CACHE_HOME LOCALAPPDATA e

/-- src/windows.rs `config_home`. -/
def config_home (e : Env) : Option String :=
  resolve_xdg_path_with_fallback Xdg.CONFIG_HOME APPDATA e

/-- src/windows.rs `config_local`. -/
def config_local (e : Env) : Option String :=
  resolve_path LOCALAPPDATA e

/-- src/windows.rs `data_home`. -/
def data_home (e : Env) : Option String :=
  resolve_xdg_path_with_fallback Xdg.DATA_HOME APPDATA e

/-- src/windows.rs `data_local`. -/
def data_local (e : Env) : Option String :=
  e.vars LOCALAPPDATA

/-- src/windows.rs `desktop`. -/
def desktop (e : Env) : Option String :=
  resolve_xdg_path_with_fallback_and_sub_dir Xdg.DESKTOP_DIR USERPROFILE ("Desktop") e

/-- src/windows.rs `documents`. -/
def documents (e : Env) : Option String :=
  resolve_xdg_path_with_fallback_and_sub_dir Xdg.DOCUMENTS_DIR USERPROFILE ("Documents") e

/-- src/windows.rs `downloads`. -/
def downloads (e : Env) : Option String :=
  resolve_xdg_path_with_fallback_and_sub_dir Xdg.DOWNLOAD_DIR USERPROFILE ("Downloads") e

/-- src/windows.rs `fonts`. -/
def fonts (_ : Env) : Option String :=
  none

/-- src/windows.rs `music`. -/
def music (e : Env) : Option String :=
  resolve_xdg_path_with_fallback_and_sub_dir Xdg.MUSIC_DIR USERPROFILE ("Music") e

/-- src/windows.rs `pictures`. -/
def pictures (e : Env) : Option String :=
  resolve_xdg_path_with_fallback_and_sub_dir Xdg.PICTURES_DIR USERPROFILE ("Pictures") e

/-- src/windows.rs `preferences`. -/
def preferences (e : Env) : Option String :=
  config_home e

/-- src/windows.rs `publicshare`: a hardcoded literal; the environment is
never consulted. -/
def publicshare (_ : Env) : Option String :=
  some ("C:\\Users\\Public")

/-- src/windows.rs `runtime`. -/
def runtime (e : Env) : Option String :=
  e.vars ("TEMP")

/-- src/windows.rs `state_home`. -/
def state_home (e : Env) : Option String :=
  resolve_xdg_path_with_fallback Xdg.STATE_HOME LOCALAPPDATA e

/-- src/windows.rs `templates`. -/
def templates (e : Env) : Option String :=
  resolve_xdg_path_with_fallback_and_sub_dir Xdg.TEMPLATES_DIR USERPROFILE ("Templates") e

/-- src/windows.rs `videos`. -/
def videos (e : Env) : Option String :=
  resolve_xdg_path_with_fallback_and_sub_dir Xdg.VIDEOS_DIR USERPROFILE ("Videos") e

end WindowsMod

namespace DirOpt

/-- src/lib.rs `Dir::resolve_xdg_path`:
`env::var(var).ok().map(PathBuf::from).filter(|path| path.is_absolute())`. -/
def resolve_xdg_path (p : Platform) (var : String) (e : Env) : Option String :=
  (e.vars var).filter (fun v => isAbsolute p v)

/-- src/lib.rs `Dir::home`: `std::env::home_dir()`. -/
def home (p : Platform) (e : Env) : Option String :=
  stdHomeDir p e

/-- src/lib.rs `Dir::get_platform_default`: macOS and Linux join a
home-relative path, Windows reads an environment variable directly. -/
def get_platform_default (p : Platform) (macos_path windows_env linux_path : String) (e : Env) : Option String :=
  match p with
  | .macos => (home .macos e).map (fun h => pathJoin .macos h macos_path)
  | .windows => e.vars windows_env
  | .linux => (home .linux e).map (fun h => pathJoin .linux h linux_path)

/-- src/lib.rs `Dir::get_platform_default_with_windows_subdir`: like
`get_platform_default` but Windows joins a sub-directory onto the
environment variable's value. -/
def get_platform_default_with_windows_subdir (p : Platform) (macos_path windows_env windows_subdir linux_path : String) (e : Env) : Option String :=
  match p with
  | .macos => (home .macos e).map (fun h => pathJoin .macos h macos_path)
  | .windows => (e.vars windows_env).map (fun v => pathJoin .windows v windows_subdir)
  | .linux => (home .linux e).map (fun h => pathJoin .linux h linux_path)

/-- src/lib.rs `Dir::bin_home`. -/
def bin_home (p : Platform) (e : Env) : Option String :=
  orO (resolve_xdg_path p ("XDG_BIN_HOME") e)
    (match p with
     | .windows => (e.vars ("LOCALAPPDATA")).map (fun v => pathJoin .windows v ("Programs"))
     | _ => (home p e).map (fun h => pathJoin p h (".local/bin")))

/-- src/lib.rs `Dir::cache_home`. -/
def cache_home (p : Platform) (e : Env) : Option String :=
  orO (resolve_xdg_path p ("XDG_CACHE_HOME") e)
    (get_platform_default p ("Library/Caches") ("LOCALAPPDATA") (".cache") e)

/-- src/lib.rs `Dir::config_home`. -/
def config_home (p : Platform) (e : Env) : Option String :=
  orO (resolve_xdg_path p ("XDG_CONFIG_HOME") e)
    (get_platform_default p ("Library/Application Support") ("APPDATA") (".config") e)

/-- src/lib.rs `Dir::config_local`. -/
def config_local (p : Platform) (e : Env) : Option String :=
  match p with
  | .windows => e.vars ("LOCALAPPDATA")
  | _ => config_home p e

/-- src/lib.rs `Dir::data_home`. -/
def data_home (p : Platform) (e : Env) : Option String :=
  orO (resolve_xdg_path p ("XDG_DATA_HOME") e)
    (get_platform_default p ("Library/Application Support") ("APPDATA") (".local/share") e)

/-- src/lib.rs `Dir::data_local`. -/
def data_local (p : Platform) (e : Env) : Option String :=
  match p with
  | .windows => e.vars ("LOCALAPPDATA")
  | _ => data_home p e

/-- src/lib.rs `Dir::desktop`. -/
def desktop (p : Platform) (e : Env) : Option String :=
  orO (resolve_xdg_path p ("XDG_DESKTOP_DIR") e)
    (get_platform_default_with_windows_subdir p ("Desktop") ("USERPROFILE") ("Desktop") ("Desktop") e)

/-- src/lib.rs `Dir::documents`. -/
def documents (p : Platform) (e : Env) : Option String :=
  orO (resolve_xdg_path p ("XDG_DOCUMENTS_DIR") e)
    (get_platform_default_with_windows_subdir p ("Documents") ("USERPROFILE") ("Documents") ("Documents") e)

/-- src/lib.rs `Dir::downloads`. -/
def downloads (p : Platform) (e : Env) : Option String :=
  orO (resolve_xdg_path p ("XDG_DOWNLOAD_DIR") e)
    (get_platform_default_with_windows_subdir p ("Downloads") ("USERPROFILE") ("Downloads") ("Downloads") e)

/-- src/lib.rs `Dir::fonts`: no override variable; `None` on Windows. -/
def fonts (p : Platform) (e : Env) : Option String :=
  match p with
  | .macos => (home .macos e).map (fun h => pathJoin .macos h ("Library/Fonts"))
  | .linux => (home .linux e).map (fun h => pathJoin .linux h (".local/share/fonts"))
  | .windows => none

/-- src/lib.rs `Dir::music`. -/
def music (p : Platform) (e : Env) : Option String :=
  orO (resolve_xdg_path p ("XDG_MUSIC_DIR") e)
    (get_platform_default_with_windows_subdir p ("Music") ("USERPROFILE") ("Music") ("Music") e)

/-- src/lib.rs `Dir::pictures`. -/
def pictures (p : Platform) (e : Env) : Option String :=
  orO (resolve_xdg_path p ("XDG_PICTURES_DIR") e)
    (get_platform_default_with_windows_subdir p ("Pictures") ("USERPROFILE") ("Pictures") ("Pictures") e)

/-- src/lib.rs `Dir::preferences`: `Library/Preferences` on macOS,
`config_home` elsewhere. -/
def preferences (p : Platform) (e : Env) : Option String :=
  match p with
  | .macos => (home .macos e).map (fun h => pathJoin .macos h ("Library/Preferences"))
  | _ => config_home p e

/-- src/lib.rs `Dir::publicshare`. -/
def publicshare (p : Platform) (e : Env) : Option String :=
  orO (resolve_xdg_path p ("XDG_PUBLICSHARE_DIR") e)
    (match p with
     | .macos => (home .macos e).map (fun h => pathJoin .macos h ("Public"))
     | .windows => some ("C:\\Users\\Public")
     | .linux => (home .linux e).map (fun h => pathJoin .linux h ("Public")))

/-- src/lib.rs `Dir::runtime`. -/
def runtime (p : Platform) (e : Env) : Option String :=
  orO (resolve_xdg_path p ("XDG_RUNTIME_DIR") e)
    (match p with
     | .windows => e.vars ("TEMP")
     | _ => orO (e.vars ("TMPDIR")) (some ("/tmp")))

/-- src/lib.rs `Dir::state_home`. -/
def state_home (p : Platform) (e : Env) : Option String :=
  orO (resolve_xdg_path p ("XDG_STATE_HOME") e)
    (get_platform_default p ("Library/Application Support") ("LOCALAPPDATA") (".local/state") e)

/-- src/lib.rs `Dir::templates`. -/
def templates (p : Platform) (e : Env) : Option String :=
  orO (resolve_xdg_path p ("XDG_TEMPLATES_DIR") e)
    (get_platform_default_with_windows_subdir p ("Templates") ("USERPROFILE") ("Templates") ("Templates") e)

/-- src/lib.rs `Dir::videos`. -/
def videos (p : Platform) (e : Env) : Option String :=
  orO (resolve_xdg_path p ("XDG_VIDEOS_DIR") e)
    (get_platform_default_with_windows_subdir p ("Movies") ("USERPROFILE") ("Videos") ("Videos") e)

end DirOpt

/-- The logical directory kinds exposed by the public API. -/
inductive DirectoryKind where
  | home
  | binHome
  | cacheHome
  | configHome
  | configLocal
  | dataHome
  | dataLocal
  | stateHome
  | desktop
  | documents
  | downloads
  | music
  | pictures
  | videos
  | templates
  | publicshare
  | runtime
  | fonts
  | preferences
deriving DecidableEq

/-- The XDG override variable assigned to each kind by src/lib.rs
(`none` for kinds whose operation never calls `resolve_xdg_path`). -/
def overrideVar (k : DirectoryKind) : Option String :=
  match k with
  | .home => none
  | .binHome => some ("XDG_BIN_HOME")
  | .cacheHome => some ("XDG_CACHE_HOME")
  | .configHome => some ("XDG_CONFIG_HOME")
  | .configLocal => none
  | .dataHome => some ("XDG_DATA_HOME")
  | .dataLocal => none
  | .stateHome => some ("XDG_STATE_HOME")
  | .desktop => some ("XDG_DESKTOP_DIR")
  | .documents => some ("XDG_DOCUMENTS_DIR")
  | .downloads => some ("XDG_DOWNLOAD_DIR")
  | .music => some ("XDG_MUSIC_DIR")
  | .pictures => some ("XDG_PICTURES_DIR")
  | .videos => some ("XDG_VIDEOS_DIR")
  | .templates => some ("XDG_TEMPLATES_DIR")
  | .publicshare => some ("XDG_PUBLICSHARE_DIR")
  | .runtime => some ("XDG_RUNTIME_DIR")
  | .fonts => none
  | .preferences => none

namespace DirOpt

/-- Dispatch of the src/lib.rs public operations over `DirectoryKind`. -/
def resolve (p : Platform) (k : DirectoryKind) (e : Env) : Option String :=
  match k with
  | .home => home p e
  | .binHome => bin_home p e
  | .cacheHome => cache_home p e
  | .configHome => config_home p e
  | .configLocal => config_local p e
  | .dataHome => data_home p e
  | .dataLocal => data_local p e
  | .stateHome => state_home p e
  | .desktop => desktop p e
  | .documents => documents p e
  | .downloads => downloads p e
  | .music => music p e
  | .pictures => pictures p e
  | .videos => videos p e
  | .templates => templates p e
  | .publicshare => publicshare p e
  | .runtime => runtime p e
  | .fonts => fonts p e
  | .preferences => preferences p e

/-- The platform-default branch of each src/lib.rs operation: exactly the
expression the operation evaluates when its XDG override does not apply
(for kinds without an override, the whole operation). -/
def platform_fallback (p : Platform) (k : DirectoryKind) (e : Env) : Option String :=
  match k with
  | .home => home p e
  | .binHome =>
      match p with
      | .windows => (e.vars ("LOCALAPPDATA")).map (fun v => pathJoin .windows v ("Programs"))
      | _ => (home p e).map (fun h => pathJoin p h (".local/bin"))
  | .cacheHome => get_platform_default p ("Library/Caches") ("LOCALAPPDATA") (".cache") e
  | .configHome => get_platform_default p ("Library/Application Support") ("APPDATA") (".config") e
  | .configLocal => config_local p e
  | .dataHome => get_platform_default p ("Library/Application Support") ("APPDATA") (".local/share") e
  | .dataLocal => data_local p e
  | .stateHome => get_platform_default p ("Library/Application Support") ("LOCALAPPDATA") (".local/state") e
  | .desktop => get_platform_default_with_windows_subdir p ("Desktop") ("USERPROFILE") ("Desktop") ("Desktop") e
  | .documents => get_platform_default_with_windows_subdir p ("Documents") ("USERPROFILE") ("Documents") ("Documents") e
  | .downloads => get_platform_default_with_windows_subdir p ("Downloads") ("USERPROFILE") ("Downloads") ("Downloads") e
  | .music => get_platform_default_with_windows_subdir p ("Music") ("USERPROFILE") ("Music") ("Music") e
  | .pictures => get_platform_default_with_windows_subdir p ("Pictures") ("USERPROFILE") ("Pictures") ("Pictures") e
  | .videos => get_platform_default_with_windows_subdir p ("Movies") ("USERPROFILE") ("Videos") ("Videos") e
  | .templates => get_platform_default_with_windows_subdir p ("Templates") ("USERPROFILE") ("Templates") ("Templates") e
  | .publicshare =>
      match p with
      | .macos => (home .macos e).map (fun h => pathJoin .macos h ("Public"))
      | .windows => some ("C:\\Users\\Public")
      | .linux => (home .linux e).map (fun h => pathJoin .linux h ("Public"))
  | .runtime =>
      match p with
      | .windows => e.vars ("TEMP")
      | _ => orO (e.vars ("TMPDIR")) (some ("/tmp"))
  | .fonts => fonts p e
  | .preferences => preferences p e

end DirOpt

namespace DirRes

/-- src/dir.rs `Dir::home`: `HOME` verbatim when set (Unix, no emptiness
or absoluteness check), else the `getpwuid` home field, else a descriptive
error; on Windows `USERPROFILE`, else `HOMEDRIVE` ++ `HOMEPATH`, else a
descriptive error. -/
def home (p : Platform) (e : Env) : Except String String :=
  match p with
  | .windows =>
      match e.vars ("USERPROFILE") with
      | some profile => .ok profile
      | none =>
          match e.vars ("HOMEDRIVE"), e.vars ("HOMEPATH") with
          | some drive, some path => .ok (drive ++ path)
          | _, _ => .error ("Failed to resolve the home directory path")
  | _ =>
      match e.vars ("HOME") with
      | some h => .ok h
      | none =>
          match e.userDbHome with
          | some h => .ok h
          | none => .error ("Failed to resolve the home directory path")

/-- src/dir.rs `Dir::config_home`: the `XDG_CONFIG_HOME` value verbatim
when set (no absoluteness filter), else the platform default. -/
def config_home (p : Platform) (e : Env) : Except String String :=
  match e.vars ("XDG_CONFIG_HOME") with
  | some v => .ok v
  | none =>
      match p with
      | .macos => (home .macos e).map (fun h => pathJoin .macos h ("Library/Application Support"))
      | .windows =>
          match e.vars ("APPDATA") with
          | some appdata => .ok appdata
          | none => .error ("Failed to resolve config directory")
      | .linux => (home .linux e).map (fun h => pathJoin .linux h (".config"))

/-- src/dir.rs `Dir::publicshare_dir`. -/
def publicshare_dir (p : Platform) (e : Env) : Except String String :=
  match e.vars ("XDG_PUBLICSHARE_DIR") with
  | some v => .ok v
  | none =>
      match p with
      | .macos => (home .macos e).map (fun h => pathJoin .macos h ("Public"))
      | .windows => .ok ("C:\\Users\\Public")
      | .linux => (home .linux e).map (fun h => pathJoin .linux h ("Public"))

/-- src/dir.rs `Dir::runtime_dir`: the `XDG_RUNTIME_DIR` value verbatim
when set; otherwise macOS uses `TMPDIR` or `/tmp`, Windows uses `TEMP` or
errors, and Linux always returns the uid-scoped `/run/user/` path. -/
def runtime_dir (p : Platform) (e : Env) : Except String String :=
  match e.vars ("XDG_RUNTIME_DIR") with
  | some v => .ok v
  | none =>
      match p with
      | .macos =>
          match e.vars ("TMPDIR") with
          | some tmpdir => .ok tmpdir
          | none => .ok ("/tmp")
      | .windows =>
          match e.vars ("TEMP") with
          | some temp => .ok temp
          | none => .error ("Failed to resolve runtime directory")
      | .linux => .ok ("/run/user/" ++ toString e.uid)

end DirRes

/-!
State-passing embedding for the determinism and purity claim: every
process-state access of the source (`env::var`, `env::var_os`,
`std::env::home_dir`, `getpwuid`, `getuid`, the Windows profile-directory
call) is threaded through an explicit state, so that "no operation
mutates the environment" and "two calls return identical results" are
properties of the resulting state transformer rather than assumptions.
-/

/-- A computation reading (and in principle rewriting) process state. -/
def ReadM (α : Type) : Type := Env → α × Env

/-- Lift a value into `ReadM`. -/
def pureS {α : Type} (a : α) : ReadM α := fun e => (a, e)

/-- Sequence two `ReadM` computations. -/
def bindS {α β : Type} (m : ReadM α) (f : α → ReadM β) : ReadM β :=
  fun e => f (m e).1 (m e).2

/-- `env::var` / `env::var_os`: read one environment variable. -/
def getVarS (k : String) : ReadM (Option String) := fun e => (e.vars k, e)

/-- The `getpwuid` home-field lookup. -/
def getUserDbHomeS : ReadM (Option String) := fun e => (e.userDbHome, e)

/-- The Windows profile-directory OS call. -/
def getWinProfileDirS : ReadM (Option String) := fun e => (e.winProfileDir, e)

/-- `getuid`. -/
def getUidS : ReadM Nat := fun e => (e.uid, e)

/-- State-passing `std::env::home_dir`. -/
def stdHomeDirS (p : Platform) : ReadM (Option String) :=
  match p with
  | .windows =>
      bindS (getVarS ("USERPROFILE")) (fun o =>
        match o.filter (fun s => !(s == "")) with
        | some h => pureS (some h)
        | none => getWinProfileDirS)
  | _ =>
      bindS (getVarS ("HOME")) (fun o =>
        match o.filter (fun s => !(s == "")) with
        | some h => pureS (some h)
        | none => getUserDbHomeS)

/-- State-passing `or_else` over an optional read. -/
def orS (m fb : ReadM (Option String)) : ReadM (Option String) :=
  bindS m (fun o =>
    match o with
    | some x => pureS (some x)
    | none => fb)

namespace DirOptS

/-- State-passing `Dir::resolve_xdg_path`. -/
def resolve_xdg_pathS (p : Platform) (var : String) : ReadM (Option String) :=
  bindS (getVarS var) (fun o => pureS (o.filter (fun v => isAbsolute p v)))

/-- State-passing `Dir::home`. -/
def homeS (p : Platform) : ReadM (Option String) := stdHomeDirS p

/-- State-passing `Dir::get_platform_default`. -/
def get_platform_defaultS (p : Platform) (macos_path windows_env linux_path : String) : ReadM (Option String) :=
  match p with
  | .macos => bindS (homeS .macos) (fun h => pureS (h.map (fun x => pathJoin .macos x macos_path)))
  | .windows => getVarS windows_env
  | .linux => bindS (homeS .linux) (fun h => pureS (h.map (fun x => pathJoin .linux x linux_path)))

/-- State-passing `Dir::get_platform_default_with_windows_subdir`. -/
def get_platform_default_wsS (p : Platform) (macos_path windows_env windows_subdir linux_path : String) : ReadM (Option String) :=
  match p with
  | .macos => bindS (homeS .macos) (fun h => pureS (h.map (fun x => pathJoin .macos x macos_path)))
  | .windows => bindS (getVarS windows_env) (fun v => pureS (v.map (fun x => pathJoin .windows x windows_subdir)))
  | .linux => bindS (homeS .linux) (fun h => pureS (h.map (fun x => pathJoin .linux x linux_path)))

/-- The state-passing form of each src/lib.rs public operation. -/
def resolveS (p : Platform) (k : DirectoryKind) : ReadM (Option String) :=
  match k with
  | .home => homeS p
  | .binHome =>
      orS (resolve_xdg_pathS p ("XDG_BIN_HOME"))
        (match p with
         | .windows => bindS (getVarS ("LOCALAPPDATA")) (fun v => pureS (v.map (fun x => pathJoin .windows x ("Programs"))))
         | _ => bindS (homeS p) (fun h => pureS (h.map (fun x => pathJoin p x (".local/bin")))))
  | .cacheHome =>
      orS (resolve_xdg_pathS p ("XDG_CACHE_HOME"))
        (get_platform_defaultS p ("Library/Caches") ("LOCALAPPDATA") (".cache"))
  | .configHome =>
      orS (resolve_xdg_pathS p ("XDG_CONFIG_HOME"))
        (get_platform_defaultS p ("Library/Application Support") ("APPDATA") (".config"))
  | .configLocal =>
      match p with
      | .windows => getVarS ("LOCALAPPDATA")
      | _ =>
          orS (resolve_xdg_pathS p ("XDG_CONFIG_HOME"))
            (get_platform_defaultS p ("Library/Application Support") ("APPDATA") (".config"))
  | .dataHome =>
      orS (resolve_xdg_pathS p ("XDG_DATA_HOME"))
        (get_platform_defaultS p ("Library/Application Support") ("APPDATA") (".local/share"))
  | .dataLocal =>
      match p with
      | .windows => getVarS ("LOCALAPPDATA")
      | _ =>
          orS (resolve_xdg_pathS p ("XDG_DATA_HOME"))
            (get_platform_defaultS p ("Library/Application Support") ("APPDATA") (".local/share"))
  | .stateHome =>
      orS (resolve_xdg_pathS p ("XDG_STATE_HOME"))
        (get_platform_defaultS p ("Library/Application Support") ("LOCALAPPDATA") (".local/state"))
  | .desktop =>
      orS (resolve_xdg_pathS p ("XDG_DESKTOP_DIR"))
        (get_platform_default_wsS p ("Desktop") ("USERPROFILE") ("Desktop") ("Desktop"))
  | .documents =>
      orS (resolve_xdg_pathS p ("XDG_DOCUMENTS_DIR"))
        (get_platform_default_wsS p ("Documents") ("USERPROFILE") ("Documents") ("Documents"))
  | .downloads =>
      orS (resolve_xdg_pathS p ("XDG_DOWNLOAD_DIR"))
        (get_platform_default_wsS p ("Downloads") ("USERPROFILE") ("Downloads") ("Downloads"))
  | .music =>
      orS (resolve_xdg_pathS p ("XDG_MUSIC_DIR"))
        (get_platform_default_wsS p ("Music") ("USERPROFILE") ("Music") ("Music"))
  | .pictures =>
      orS (resolve_xdg_pathS p ("XDG_PICTURES_DIR"))
        (get_platform_default_wsS p ("Pictures") ("USERPROFILE") ("Pictures") ("Pictures"))
  | .videos =>
      orS (resolve_xdg_pathS p ("XDG_VIDEOS_DIR"))
        (get_platform_default_wsS p ("Movies") ("USERPROFILE") ("Videos") ("Videos"))
  | .templates =>
      orS (resolve_xdg_pathS p ("XDG_TEMPLATES_DIR"))
        (get_platform_default_wsS p ("Templates") ("USERPROFILE") ("Templates") ("Templates"))
  | .publicshare =>
      orS (resolve_xdg_pathS p ("XDG_PUBLICSHARE_DIR"))
        (match p with
         | .macos => bindS (homeS .macos) (fun h => pureS (h.map (fun x => pathJoin .macos x ("Public"))))
         | .windows => pureS (some ("C:\\Users\\Public"))
         | .linux => bindS (homeS .linux) (fun h => pureS (h.map (fun x => pathJoin .linux x ("Public")))))
  | .runtime =>
      orS (resolve_xdg_pathS p ("XDG_RUNTIME_DIR"))
        (match p with
         | .windows => getVarS ("TEMP")
         | _ => bindS (getVarS ("TMPDIR")) (fun o => pureS (orO o (some ("/tmp")))))
  | .fonts =>
      match p with
      | .macos => bindS (homeS .macos) (fun h => pureS (h.map (fun x => pathJoin .macos x ("Library/Fonts"))))
      | .linux => bindS (homeS .linux) (fun h => pureS (h.map (fun x => pathJoin .linux x (".local/share/fonts"))))
      | .windows => pureS none
  | .preferences =>
      match p with
      | .macos => bindS (homeS .macos) (fun h => pureS (h.map (fun x => pathJoin .macos x ("Library/Preferences"))))
      | _ =>
          orS (resolve_xdg_pathS p ("XDG_CONFIG_HOME"))
            (get_platform_defaultS p ("Library/Application Support") ("APPDATA") (".config"))

end DirOptS

namespace DirResS

/-- State-passing src/dir.rs `Dir::home`. -/
def homeRS (p : Platform) : ReadM (Except String String) :=
  match p with
  | .windows =>
      bindS (getVarS ("USERPROFILE")) (fun o =>
        match o with
        | some profile => pureS (.ok profile)
        | none =>
            bindS (getVarS ("HOMEDRIVE")) (fun d =>
              bindS (getVarS ("HOMEPATH")) (fun pa =>
                match d, pa with
                | some drive, some path => pureS (.ok (drive ++ path))
                | _, _ => pureS (.error ("Failed to resolve the home directory path")))))
  | _ =>
      bindS (getVarS ("HOME")) (fun o =>
        match o with
        | some h => pureS (.ok h)
        | none =>
            bindS getUserDbHomeS (fun u =>
              match u with
              | some h => pureS (.ok h)
              | none => pureS (.error ("Failed to resolve the home directory path"))))

/-- State-passing src/dir.rs `Dir::config_home`. -/
def config_homeRS (p : Platform) : ReadM (Except String String) :=
  bindS (getVarS ("XDG_CONFIG_HOME")) (fun o =>
    match o with
    | some v => pureS (.ok v)
    | none =>
        match p with
        | .macos => bindS (homeRS .macos) (fun h => pureS (h.map (fun x => pathJoin .macos x ("Library/Application Support"))))
        | .windows =>
            bindS (getVarS ("APPDATA")) (fun a =>
              match a with
              | some appdata => pureS (.ok appdata)
              | none => pureS (.error ("Failed to resolve config directory")))
        | .linux => bindS (homeRS .linux) (fun h => pureS (h.map (fun x => pathJoin .linux x (".config")))))

/-- State-passing src/dir.rs `Dir::publicshare_dir`. -/
def publicshare_dirRS (p : Platform) : ReadM (Except String String) :=
  bindS (getVarS ("XDG_PUBLICSHARE_DIR")) (fun o =>
    match o with
    | some v => pureS (.ok v)
    | none =>
        match p with
        | .macos => bindS (homeRS .macos) (fun h => pureS (h.map (fun x => pathJoin .macos x ("Public"))))
        | .windows => pureS (.ok ("C:\\Users\\Public"))
        | .linux => bindS (homeRS .linux) (fun h => pureS (h.map (fun x => pathJoin .linux x ("Public")))))

/-- State-passing src/dir.rs `Dir::runtime_dir`. -/
def runtime_dirRS (p : Platform) : ReadM (Except String String) :=
  bindS (getVarS ("XDG_RUNTIME_DIR")) (fun o =>
    match o with
    | some v => pureS (.ok v)
    | none =>
        match p with
        | .macos =>
            bindS (getVarS ("TMPDIR")) (fun t =>
              match t with
              | some tmpdir => pureS (.ok tmpdir)
              | none => pureS (.ok ("/tmp")))
        | .windows =>
            bindS (getVarS ("TEMP")) (fun t =>
              match t with
              | some temp => pureS (.ok temp)
              | none => pureS (.error ("Failed to resolve runtime directory")))
        | .linux => bindS getUidS (fun uid => pureS (.ok ("/run/user/" ++ toString uid))))

end DirResS

/-- A state transformer that leaves the process state untouched. -/
def ReadsOnly {α : Type} (m : ReadM α) : Prop := ∀ e, (m e).2 = e

/-- Concrete environment for the C1 counterexample: a Windows
environment with absolute XDG overrides for desktop and publicshare. -/
def c1Env : Env :=
  ⟨fun k =>
    if k = ("XDG_DESKTOP_DIR") then some ("C:\\test")
    else if k = ("XDG_PUBLICSHARE_DIR") then some ("C:\\share")
    else if k = ("USERPROFILE") then some ("C:\\Users\\u")
    else none, none, none, 0⟩

/-- Concrete environment for the C2 counterexample: a relative
`XDG_CONFIG_HOME` with a resolvable home. -/
def c2Env : Env :=
  ⟨fun k =>
    if k = ("XDG_CONFIG_HOME") then some ("relative/config")
    else if k = ("HOME") then some ("/home/u")
    else none, none, none, 0⟩

/-- Concrete environment for the C3 counterexample: `HOME` holds a
relative value. -/
def c3Env : Env :=
  ⟨fun k => if k = ("HOME") then some ("rel") else none, none, none, 0⟩

/-- Concrete environment for the C7 counterexample: `TMPDIR` set,
`XDG_RUNTIME_DIR` unset, uid 1000. -/
def c7Env : Env :=
  ⟨fun k => if k = ("TMPDIR") then some ("/mytmp") else none, none, none, 1000⟩

/-- Concrete environment for the C8 counterexample: nothing resolvable. -/
def c8Env : Env :=
  ⟨fun _ => none, none, none, 0⟩

/-- Concrete environment for the C4 witness. -/
def c4Env : Env :=
  ⟨fun k =>
    if k = ("HOME") then some ("/home/u")
    else if k = ("LOCALAPPDATA") then some ("C:\\Users\\u\\AppData\\Local")
    else none, none, none, 0⟩

/-- Concrete environment for the C1 witness. -/
def c1WEnv : Env :=
  ⟨fun k => if k = ("XDG_CACHE_HOME") then some ("/xdg/cache") else none, none, none, 0⟩

/-- Concrete environment for the C2 witness. -/
def c2WEnv : Env :=
  ⟨fun k =>
    if k = ("XDG_CONFIG_HOME") then some ("relative/config")
    else if k = ("HOME") then some ("/home/u")
    else none, none, none, 0⟩

/-- An environment whose readable values are all absolute for the given
platform: every set variable, the user-database home field and the
Windows profile directory. -/
def WellFormedEnv (p : Platform) (e : Env) : Prop :=
  (∀ k v, e.vars k = some v → isAbsolute p v = true)
  ∧ (∀ h, e.userDbHome = some h → isAbsolute p h = true)
  ∧ (∀ h, e.winProfileDir = some h → isAbsolute p h = true)

/-- Concrete well-formed environment for the C3 witness. -/
def c3WEnv : Env :=
  ⟨fun _ => some ("/a"), some ("/h"), none, 0⟩

/-- Concrete environment for the C7 witness. -/
def c7WEnv : Env :=
  ⟨fun k => if k = ("TMPDIR") then some ("/t1") else none, none, none, 0⟩

/-- C1 counterexample: in the windows module, an absolute
`XDG_DESKTOP_DIR` override is returned with the `Desktop` sub-directory
appended rather than verbatim, and `publicshare` never consults its
override at all — refuting the claim that every override-bearing kind
returns the override verbatim. -/
theorem c1_windows_module_not_verbatim :
    isAbsolute .windows ("C:\\test") = true
    ∧ c1Env.vars ("XDG_DESKTOP_DIR") = some ("C:\\test")
    ∧ WindowsMod.desktop c1Env = some ("C:\\test\\Desktop")
    ∧ WindowsMod.desktop c1Env ≠ some ("C:\\test")
    ∧ isAbsolute .windows ("C:\\share") = true
    ∧ c1Env.vars ("XDG_PUBLICSHARE_DIR") = some ("C:\\share")
    ∧ WindowsMod.publicshare c1Env = some ("C:\\Users\\Public")
    ∧ WindowsMod.publicshare c1Env ≠ some ("C:\\share") := by
  decide

/-- C2 counterexample: the Result-policy `Dir` in src/dir.rs returns a
relative `XDG_CONFIG_HOME` value verbatim instead of ignoring it and
falling back to the platform default. -/
theorem c2_result_api_returns_relative_override :
    isAbsolute .linux ("relative/config") = false
    ∧ c2Env.vars ("XDG_CONFIG_HOME") = some ("relative/config")
    ∧ DirRes.config_home .linux c2Env = .ok ("relative/config")
    ∧ DirRes.config_home .linux c2Env ≠ .ok ("/home/u/.config") := by
  decide

/-- C3 counterexample: with `HOME` set to a relative value, `home()` and
`config_home()` of the Option-policy API return present but relative
paths, refuting the unconditional absoluteness invariant. -/
theorem c3_relative_home_passed_through :
    DirOpt.home .linux c3Env = some ("rel")
    ∧ isAbsolute .linux ("rel") = false
    ∧ DirOpt.config_home .linux c3Env = some ("rel/.config")
    ∧ isAbsolute .linux ("rel/.config") = false := by
  decide

/-- C7 counterexample: the Result-policy runtime operation on Linux
ignores `TMPDIR` and returns the uid-scoped path, refuting the claim
that the TMPDIR fallback rule holds for every runtime operation. -/
theorem c7_result_runtime_uses_uid :
    c7Env.vars ("XDG_RUNTIME_DIR") = none
    ∧ c7Env.vars ("TMPDIR") = some ("/mytmp")
    ∧ DirRes.runtime_dir .linux c7Env = .ok ("/run/user/1000")
    ∧ DirRes.runtime_dir .linux c7Env ≠ .ok ("/mytmp") := by
  decide

/-- C8 counterexample: with `HOME` unset and the user-database lookup
failing, the Result-policy home operation signals a typed error rather
than yielding absence. -/
theorem c8_result_home_signals_error :
    c8Env.vars ("HOME") = none
    ∧ c8Env.userDbHome = none
    ∧ DirRes.home .linux c8Env = .error ("Failed to resolve the home directory path") := by
  decide

/-- C4: on Windows with `XDG_PUBLICSHARE_DIR` unset, every publicshare
operation (Option-policy lib.rs, windows module, Result-policy dir.rs)
returns the literal `C:\Users\Public`, whatever the rest of the
environment holds, and is never absent. -/
theorem c4_windows_publicshare_literal (e : Env)
    (h : e.vars ("XDG_PUBLICSHARE_DIR") = none) :
    DirOpt.publicshare .windows e = some ("C:\\Users\\Public")
    ∧ WindowsMod.publicshare e = some ("C:\\Users\\Public")
    ∧ DirRes.publicshare_dir .windows e = .ok ("C:\\Users\\Public") := by
  refine ⟨?_, rfl, ?_⟩
  · simp [DirOpt.publicshare, DirOpt.resolve_xdg_path, h, orO, Option.filter]
  · simp [DirRes.publicshare_dir, h]

/-- C4 witness: the theorem applied at a concrete environment. -/
theorem c4_windows_publicshare_literal_witness :
    c4Env.vars ("XDG_PUBLICSHARE_DIR") = none
    ∧ DirOpt.publicshare .windows c4Env = some ("C:\\Users\\Public") :=
  ⟨by decide, (c4_windows_publicshare_literal c4Env (by decide)).1⟩

/-- C1 (amended): for the Option-policy `Dir` API of src/lib.rs, every
kind with an assigned override variable returns an absolute override
verbatim on every platform, without consulting the platform default; the
windows-module variant instead appends its sub-directory to the override
for the user-directory kinds and never consults the override for
`bin_home`, `publicshare` and `runtime`. -/
theorem c1_option_api_override_verbatim (p : Platform) (k : DirectoryKind) (e : Env)
    (var v : String) (hov : overrideVar k = some var)
    (hset : e.vars var = some v) (habs : isAbsolute p v = true) :
    DirOpt.resolve p k e = some v := by
  cases k <;>
    simp_all [overrideVar, DirOpt.resolve, DirOpt.bin_home, DirOpt.cache_home,
      DirOpt.config_home, DirOpt.data_home, DirOpt.state_home, DirOpt.desktop,
      DirOpt.documents, DirOpt.downloads, DirOpt.music, DirOpt.pictures,
      DirOpt.videos, DirOpt.templates, DirOpt.publicshare, DirOpt.runtime,
      DirOpt.resolve_xdg_path, Option.filter, orO]

/-- C1 witness: the amended theorem applied at a concrete kind and
environment. -/
theorem c1_option_api_override_verbatim_witness :
    overrideVar .cacheHome = some ("XDG_CACHE_HOME")
    ∧ c1WEnv.vars ("XDG_CACHE_HOME") = some ("/xdg/cache")
    ∧ isAbsolute .linux ("/xdg/cache") = true
    ∧ DirOpt.resolve .linux .cacheHome c1WEnv = some ("/xdg/cache") :=
  ⟨by decide, by decide, by decide,
    c1_option_api_override_verbatim .linux .cacheHome c1WEnv ("XDG_CACHE_HOME")
      ("/xdg/cache") (by decide) (by decide) (by decide)⟩

/-- C2 (amended): for the Option-policy `Dir` API of src/lib.rs (and, by
the shared `is_absolute` filter, the platform modules), an override
variable holding a relative path is ignored and the operation evaluates
exactly its platform-default branch; the Result-policy `Dir` of src/dir.rs
instead returns the relative value verbatim. -/
theorem c2_option_api_ignores_relative_override (p : Platform) (k : DirectoryKind) (e : Env)
    (var v : String) (hov : overrideVar k = some var)
    (hset : e.vars var = some v) (habs : isAbsolute p v = false) :
    DirOpt.resolve p k e = DirOpt.platform_fallback p k e := by
  cases k <;>
    simp_all [overrideVar, DirOpt.resolve, DirOpt.platform_fallback, DirOpt.bin_home,
      DirOpt.cache_home, DirOpt.config_home, DirOpt.data_home, DirOpt.state_home,
      DirOpt.desktop, DirOpt.documents, DirOpt.downloads, DirOpt.music,
      DirOpt.pictures, DirOpt.videos, DirOpt.templates, DirOpt.publicshare,
      DirOpt.runtime, DirOpt.resolve_xdg_path, Option.filter, orO]

/-- C2 witness: the amended theorem applied at a concrete kind and
environment, where the fallback concretely evaluates to the platform
default `/home/u/.config`. -/
theorem c2_option_api_ignores_relative_override_witness :
    c2WEnv.vars ("XDG_CONFIG_HOME") = some ("relative/config")
    ∧ isAbsolute .linux ("relative/config") = false
    ∧ DirOpt.resolve .linux .configHome c2WEnv = DirOpt.platform_fallback .linux .configHome c2WEnv
    ∧ DirOpt.platform_fallback .linux .configHome c2WEnv = some ("/home/u/.config") :=
  ⟨by decide, by decide,
    c2_option_api_ignores_relative_override .linux .configHome c2WEnv ("XDG_CONFIG_HOME")
      ("relative/config") (by decide) (by decide) (by decide),
    by decide⟩

/-- Unix absoluteness is preserved by appending. -/
theorem isAbsUnixL_append (l m : List Char) (h : isAbsUnixL l = true) :
    isAbsUnixL (l ++ m) = true := by
  cases l with
  | nil => simp [isAbsUnixL] at h
  | cons c t => simpa [isAbsUnixL] using h

/-- Windows absoluteness is preserved by appending. -/
theorem isAbsWinL_append (l m : List Char) (h : isAbsWinL l = true) :
    isAbsWinL (l ++ m) = true := by
  match l with
  | [] => simp [isAbsWinL] at h
  | [c] => simp [isAbsWinL] at h
  | [c1, c2] =>
      simp [isAbsWinL] at h
      cases m with
      | nil => simp [isAbsWinL, h]
      | cons c3 t => simp [isAbsWinL, h]
  | c1 :: c2 :: c3 :: rest => simpa [isAbsWinL] using h

/-- `isAbsolute` is preserved by appending to an absolute base. -/
theorem isAbsolute_append (p : Platform) (a b : String) (h : isAbsolute p a = true) :
    isAbsolute p (a ++ b) = true := by
  have hd : (a ++ b).data = a.data ++ b.data := by
    cases a
    cases b
    rfl
  cases p <;> simp only [isAbsolute, hd] at h ⊢ <;>
    first
      | exact isAbsUnixL_append _ _ h
      | exact isAbsWinL_append _ _ h

/-- Joining a relative component onto an absolute base yields an
absolute path. -/
theorem isAbsolute_pathJoin (p : Platform) (base sub : String)
    (h : isAbsolute p base = true) :
    isAbsolute p (pathJoin p base sub) = true := by
  unfold pathJoin
  split
  · next hs => exact hs
  · split
    · next hb =>
        rw [hb] at h
        cases p <;> exact absurd h (by decide)
    · split
      · exact isAbsolute_append p base sub h
      · exact isAbsolute_append p (base ++ sepStr p) sub (isAbsolute_append p base (sepStr p) h)

/-- A successful filtered option lookup satisfies the filter. -/
theorem filterO_eq_some (o : Option String) (f : String → Bool) (r : String)
    (h : o.filter f = some r) : o = some r ∧ f r = true := by
  cases o with
  | none => simp [Option.filter] at h
  | some x =>
      by_cases hf : f x = true
      · simp [Option.filter, hf] at h
        subst h
        exact ⟨rfl, hf⟩
      · simp [Option.filter, Bool.not_eq_true] at hf
        simp [Option.filter, hf] at h

/-- An `or_else` that produced a value took one of its two branches. -/
theorem orO_eq_some (a b : Option String) (r : String) (h : orO a b = some r) :
    a = some r ∨ b = some r := by
  cases a with
  | some x => left; simpa [orO] using h
  | none => right; simpa [orO] using h

/-- A successful XDG override resolution is absolute (the filter is the
source's `is_absolute` check). -/
theorem resolve_xdg_path_abs (p : Platform) (var : String) (e : Env) (r : String)
    (h : DirOpt.resolve_xdg_path p var e = some r) : isAbsolute p r = true :=
  (filterO_eq_some _ _ _ h).2

/-- In a well-formed environment, `std::env::home_dir` yields absolute
paths. -/
theorem stdHomeDir_abs (p : Platform) (e : Env) (hw : WellFormedEnv p e) (r : String)
    (h : stdHomeDir p e = some r) : isAbsolute p r = true := by
  cases p <;> unfold stdHomeDir at h <;>
    (rcases orO_eq_some _ _ _ h with h1 | h2
     · rcases filterO_eq_some _ _ _ h1 with ⟨hv, _⟩
       first
         | exact hw.1 ("HOME") r hv
         | exact hw.1 ("USERPROFILE") r hv
     · first
         | exact hw.2.1 r h2
         | exact hw.2.2 r h2)

/-- In a well-formed environment, `Dir::home` yields absolute paths. -/
theorem dirOpt_home_abs (p : Platform) (e : Env) (hw : WellFormedEnv p e) (r : String)
    (h : DirOpt.home p e = some r) : isAbsolute p r = true :=
  stdHomeDir_abs p e hw r h

/-- In a well-formed environment, a home-join result is absolute. -/
theorem home_join_abs (p : Platform) (e : Env) (hw : WellFormedEnv p e) (sub r : String)
    (h : (DirOpt.home p e).map (fun x => pathJoin p x sub) = some r) :
    isAbsolute p r = true := by
  rcases Option.map_eq_some'.mp h with ⟨x, hx, hr⟩
  rw [← hr]
  exact isAbsolute_pathJoin p x sub (dirOpt_home_abs p e hw x hx)

/-- In a well-formed environment, `get_platform_default` yields absolute
paths. -/
theorem get_platform_default_abs (p : Platform) (m w l : String) (e : Env)
    (hw : WellFormedEnv p e) (r : String)
    (h : DirOpt.get_platform_default p m w l e = some r) : isAbsolute p r = true := by
  cases p <;> simp only [DirOpt.get_platform_default] at h
  · exact home_join_abs .linux e hw l r h
  · exact home_join_abs .macos e hw m r h
  · exact hw.1 w r h

/-- In a well-formed environment,
`get_platform_default_with_windows_subdir` yields absolute paths. -/
theorem get_platform_default_ws_abs (p : Platform) (m w ws l : String) (e : Env)
    (hw : WellFormedEnv p e) (r : String)
    (h : DirOpt.get_platform_default_with_windows_subdir p m w ws l e = some r) :
    isAbsolute p r = true := by
  cases p <;> simp only [DirOpt.get_platform_default_with_windows_subdir] at h
  · exact home_join_abs .linux e hw l r h
  · exact home_join_abs .macos e hw m r h
  · rcases Option.map_eq_some'.mp h with ⟨x, hx, hr⟩
    rw [← hr]
    exact isAbsolute_pathJoin .windows x ws (hw.1 w x hx)

/-- An override-or-fallback result is absolute when the fallback is. -/
theorem orO_xdg_abs (p : Platform) (var : String) (e : Env) (fb : Option String)
    (hfb : ∀ r, fb = some r → isAbsolute p r = true) (r : String)
    (h : orO (DirOpt.resolve_xdg_path p var e) fb = some r) : isAbsolute p r = true := by
  rcases orO_eq_some _ _ _ h with h1 | h2
  · exact resolve_xdg_path_abs p var e r h1
  · exact hfb r h2

/-- In a well-formed environment, `Dir::config_home` yields absolute
paths. -/
theorem dirOpt_config_home_abs (p : Platform) (e : Env) (hw : WellFormedEnv p e)
    (r : String) (h : DirOpt.config_home p e = some r) : isAbsolute p r = true :=
  orO_xdg_abs p ("XDG_CONFIG_HOME") e _
    (fun r h => get_platform_default_abs p _ _ _ e hw r h) r h

/-- In a well-formed environment, `Dir::data_home` yields absolute
paths. -/
theorem dirOpt_data_home_abs (p : Platform) (e : Env) (hw : WellFormedEnv p e)
    (r : String) (h : DirOpt.data_home p e = some r) : isAbsolute p r = true :=
  orO_xdg_abs p ("XDG_DATA_HOME") e _
    (fun r h => get_platform_default_abs p _ _ _ e hw r h) r h

/-- C3 (amended): restricted to well-formed environments — every set
environment value, the user-database home field and the Windows profile
directory absolute — every present result of every public operation of
the Option-policy src/lib.rs API, on every platform, is an absolute path.
(Unconditionally the invariant is false: a relative `HOME`, `TMPDIR`,
`TEMP`, `APPDATA` or similar native value is passed through unfiltered.) -/
theorem c3_wellformed_results_absolute (p : Platform) (k : DirectoryKind) (e : Env)
    (r : String) (hw : WellFormedEnv p e) (h : DirOpt.resolve p k e = some r) :
    isAbsolute p r = true := by
  cases k
  case home => exact dirOpt_home_abs p e hw r h
  case binHome =>
      refine orO_xdg_abs p ("XDG_BIN_HOME") e _ ?_ r h
      intro r hfb
      cases p <;> simp only at hfb
      · exact home_join_abs .linux e hw (".local/bin") r hfb
      · exact home_join_abs .macos e hw (".local/bin") r hfb
      · rcases Option.map_eq_some'.mp hfb with ⟨x, hx, hr⟩
        rw [← hr]
        exact isAbsolute_pathJoin .windows x ("Programs") (hw.1 ("LOCALAPPDATA") x hx)
  case cacheHome =>
      exact orO_xdg_abs p ("XDG_CACHE_HOME") e _
        (fun r h => get_platform_default_abs p _ _ _ e hw r h) r h
  case configHome => exact dirOpt_config_home_abs p e hw r h
  case configLocal =>
      cases p <;> simp only [DirOpt.resolve, DirOpt.config_local] at h
      · exact dirOpt_config_home_abs .linux e hw r h
      · exact dirOpt_config_home_abs .macos e hw r h
      · exact hw.1 ("LOCALAPPDATA") r h
  case dataHome => exact dirOpt_data_home_abs p e hw r h
  case dataLocal =>
      cases p <;> simp only [DirOpt.resolve, DirOpt.data_local] at h
      · exact dirOpt_data_home_abs .linux e hw r h
      · exact dirOpt_data_home_abs .macos e hw r h
      · exact hw.1 ("LOCALAPPDATA") r h
  case stateHome =>
      exact orO_xdg_abs p ("XDG_STATE_HOME") e _
        (fun r h => get_platform_default_abs p _ _ _ e hw r h) r h
  case desktop =>
      exact orO_xdg_abs p ("XDG_DESKTOP_DIR") e _
        (fun r h => get_platform_default_ws_abs p _ _ _ _ e hw r h) r h
  case documents =>
      exact orO_xdg_abs p ("XDG_DOCUMENTS_DIR") e _
        (fun r h => get_platform_default_ws_abs p _ _ _ _ e hw r h) r h
  case downloads =>
      exact orO_xdg_abs p ("XDG_DOWNLOAD_DIR") e _
        (fun r h => get_platform_default_ws_abs p _ _ _ _ e hw r h) r h
  case music =>
      exact orO_xdg_abs p ("XDG_MUSIC_DIR") e _
        (fun r h => get_platform_default_ws_abs p _ _ _ _ e hw r h) r h
  case pictures =>
      exact orO_xdg_abs p ("XDG_PICTURES_DIR") e _
        (fun r h => get_platform_default_ws_abs p _ _ _ _ e hw r h) r h
  case videos =>
      exact orO_xdg_abs p ("XDG_VIDEOS_DIR") e _
        (fun r h => get_platform_default_ws_abs p _ _ _ _ e hw r h) r h
  case templates =>
      exact orO_xdg_abs p ("XDG_TEMPLATES_DIR") e _
        (fun r h => get_platform_default_ws_abs p _ _ _ _ e hw r h) r h
  case publicshare =>
      refine orO_xdg_abs p ("XDG_PUBLICSHARE_DIR") e _ ?_ r h
      intro r hfb
      cases p <;> simp only at hfb
      · exact home_join_abs .linux e hw ("Public") r hfb
      · exact home_join_abs .macos e hw ("Public") r hfb
      · rw [show r = ("C:\\Users\\Public") from by simpa using hfb.symm]
        decide
  case runtime =>
      refine orO_xdg_abs p ("XDG_RUNTIME_DIR") e _ ?_ r h
      intro r hfb
      cases p <;> simp only at hfb
      · rcases orO_eq_some _ _ _ hfb with h1 | h2
        · exact hw.1 ("TMPDIR") r h1
        · rw [show r = ("/tmp") from by simpa using h2.symm]
          decide
      · rcases orO_eq_some _ _ _ hfb with h1 | h2
        · exact hw.1 ("TMPDIR") r h1
        · rw [show r = ("/tmp") from by simpa using h2.symm]
          decide
      · exact hw.1 ("TEMP") r hfb
  case fonts =>
      cases p <;> simp only [DirOpt.resolve, DirOpt.fonts] at h
      · exact home_join_abs .linux e hw (".local/share/fonts") r h
      · exact home_join_abs .macos e hw ("Library/Fonts") r h
      · exact Option.noConfusion h
  case preferences =>
      cases p <;> simp only [DirOpt.resolve, DirOpt.preferences] at h
      · exact dirOpt_config_home_abs .linux e hw r h
      · exact home_join_abs .macos e hw ("Library/Preferences") r h
      · exact dirOpt_config_home_abs .windows e hw r h

/-- The C3 witness environment is well-formed for Linux. -/
theorem c3WEnv_wellformed : WellFormedEnv .linux c3WEnv :=
  ⟨fun _ v hv => by cases hv; decide,
   fun hh hv => by cases hv; decide,
   fun hh hv => Option.noConfusion hv⟩

/-- C3 witness: the amended theorem applied at a concrete kind and a
concrete well-formed environment. -/
theorem c3_wellformed_results_absolute_witness :
    WellFormedEnv .linux c3WEnv ∧ isAbsolute .linux ("/a") = true :=
  ⟨c3WEnv_wellformed,
    c3_wellformed_results_absolute .linux .configHome c3WEnv ("/a")
      c3WEnv_wellformed (by decide)⟩

/-- An `or_else` chain ending in a `some` literal is never absent. -/
theorem orO_ending_some_isSome (a b : Option String) (c : String) :
    (orO a (orO b (some c))).isSome = true := by
  cases a <;> cases b <;> rfl

/-- C7 (amended): for the Option-policy runtime operations — lib.rs
`Dir::runtime` on Linux and macOS and the linux/macos module `runtime`
functions — when `XDG_RUNTIME_DIR` yields no override the result is the
value of `TMPDIR` when set and the literal `/tmp` otherwise, and the
result is never absent; the Result-policy `runtime_dir` of src/dir.rs
instead returns the uid-scoped `/run/user/` path on Linux. -/
theorem c7_option_runtime_tmpdir_rule (e : Env) :
    (DirOpt.resolve_xdg_path .linux ("XDG_RUNTIME_DIR") e = none →
        DirOpt.runtime .linux e = some ((e.vars ("TMPDIR")).getD ("/tmp"))
        ∧ LinuxMod.runtime e = some ((e.vars ("TMPDIR")).getD ("/tmp")))
    ∧ (DirOpt.resolve_xdg_path .macos ("XDG_RUNTIME_DIR") e = none →
        DirOpt.runtime .macos e = some ((e.vars ("TMPDIR")).getD ("/tmp"))
        ∧ MacosMod.runtime e = some ((e.vars ("TMPDIR")).getD ("/tmp")))
    ∧ (DirOpt.runtime .linux e).isSome = true
    ∧ (DirOpt.runtime .macos e).isSome = true
    ∧ (LinuxMod.runtime e).isSome = true
    ∧ (MacosMod.runtime e).isSome = true := by
  refine ⟨fun h => ⟨?_, ?_⟩, fun h => ⟨?_, ?_⟩, ?_, ?_, ?_, ?_⟩ <;>
    first
      | (simp only [DirOpt.runtime, LinuxMod.runtime, MacosMod.runtime,
          Xdg.resolve_path, Xdg.RUNTIME_DIR, DirOpt.resolve_xdg_path] at h ⊢ <;>
         rw [h] <;> cases hv : e.vars ("TMPDIR") <;> simp [orO, hv])
      | exact orO_ending_some_isSome _ _ _

/-- C7 witness: the amended theorem applied at a concrete environment
where `TMPDIR` is set. -/
theorem c7_option_runtime_tmpdir_rule_witness :
    DirOpt.resolve_xdg_path .linux ("XDG_RUNTIME_DIR") c7WEnv = none
    ∧ DirOpt.runtime .linux c7WEnv = some ("/t1") :=
  ⟨by decide, ((c7_option_runtime_tmpdir_rule c7WEnv).1 (by decide)).1⟩

/-- C8 (amended): the Option-policy home operation (lib.rs, via
`std::env::home_dir`) never signals a hard failure: on Linux it is absent
exactly when `HOME` is unset or empty and the user-database lookup fails;
the Result-policy home of src/dir.rs instead returns a typed descriptive
error value — never absence — whenever it cannot resolve. -/
theorem c8_option_home_absent_iff (e : Env) :
    (DirOpt.home .linux e = none ↔
        ((e.vars ("HOME") = none ∨ e.vars ("HOME") = some ("")) ∧ e.userDbHome = none))
    ∧ (∀ msg, DirRes.home .linux e = .error msg →
        msg = "Failed to resolve the home directory path")
    ∧ (e.vars ("HOME") = none → e.userDbHome = none →
        DirRes.home .linux e = .error ("Failed to resolve the home directory path")) := by
  refine ⟨?_, ?_, ?_⟩
  · unfold DirOpt.home stdHomeDir
    cases hv : e.vars ("HOME") with
    | none => cases hu : e.userDbHome <;> simp [orO, Option.filter, hv, hu]
    | some h =>
        by_cases hh : h = ""
        · subst hh
          cases hu : e.userDbHome <;> simp [orO, Option.filter, hv, hu]
        · cases hu : e.userDbHome <;> simp [orO, Option.filter, hv, hu, hh]
  · intro msg hmsg
    unfold DirRes.home at hmsg
    cases hv : e.vars ("HOME") <;> rw [hv] at hmsg
    · cases hu : e.userDbHome <;> rw [hu] at hmsg
      · exact (Except.error.inj hmsg).symm
      · exact Except.noConfusion hmsg
    · exact Except.noConfusion hmsg
  · intro hv hu
    unfold DirRes.home
    rw [hv, hu]

/-- C8 witness: the amended theorem applied at the empty environment. -/
theorem c8_option_home_absent_iff_witness :
    DirOpt.home .linux c8Env = none
    ∧ DirRes.home .linux c8Env = .error ("Failed to resolve the home directory path") :=
  ⟨(c8_option_home_absent_iff c8Env).1.mpr ⟨Or.inl rfl, rfl⟩,
    (c8_option_home_absent_iff c8Env).2.2 rfl rfl⟩

/-- C5: `fonts()` is absent on Windows in every environment; on Linux it
is home joined with `.local/share/fonts` and on macOS home joined with
`Library/Fonts` (hence absent exactly when home does not resolve); the
platform modules agree. -/
theorem c5_fonts_platform_rule (e : Env) :
    DirOpt.fonts .windows e = none
    ∧ WindowsMod.fonts e = none
    ∧ DirOpt.fonts .linux e = (DirOpt.home .linux e).map (fun h => pathJoin .linux h (".local/share/fonts"))
    ∧ DirOpt.fonts .macos e = (DirOpt.home .macos e).map (fun h => pathJoin .macos h ("Library/Fonts"))
    ∧ LinuxMod.fonts e = DirOpt.fonts .linux e
    ∧ MacosMod.fonts e = DirOpt.fonts .macos e :=
  ⟨rfl, rfl, rfl, rfl, rfl, rfl⟩

/-- C6: `config_local` and `data_local` coincide with `config_home` and
`data_home` on Linux and macOS, and on Windows both return the raw value
of `LOCALAPPDATA` (absence when unset); the platform modules agree. -/
theorem c6_local_variants (e : Env) :
    DirOpt.config_local .linux e = DirOpt.config_home .linux e
    ∧ DirOpt.config_local .macos e = DirOpt.config_home .macos e
    ∧ DirOpt.data_local .linux e = DirOpt.data_home .linux e
    ∧ DirOpt.data_local .macos e = DirOpt.data_home .macos e
    ∧ DirOpt.config_local .windows e = e.vars ("LOCALAPPDATA")
    ∧ DirOpt.data_local .windows e = e.vars ("LOCALAPPDATA")
    ∧ WindowsMod.config_local e = e.vars ("LOCALAPPDATA")
    ∧ WindowsMod.data_local e = e.vars ("LOCALAPPDATA")
    ∧ LinuxMod.config_local e = LinuxMod.config_home e
    ∧ LinuxMod.data_local e = LinuxMod.data_home e
    ∧ MacosMod.config_local e = MacosMod.config_home e
    ∧ MacosMod.data_local e = MacosMod.data_home e :=
  ⟨rfl, rfl, rfl, rfl, rfl, rfl, rfl, rfl, rfl, rfl, rfl, rfl⟩

/-- C10: on Linux, every public operation of the Option-policy `Dir` in
src/lib.rs agrees with the like-named free function of the linux module
(`Dir::home` has no counterpart there; environment values are strings,
i.e. valid UTF-8, so `env::var` and `env::var_os` coincide). -/
theorem c10_lib_matches_linux_module (e : Env) :
    DirOpt.bin_home .linux e = LinuxMod.bin_home e
    ∧ DirOpt.cache_home .linux e = LinuxMod.cache_home e
    ∧ DirOpt.config_home .linux e = LinuxMod.config_home e
    ∧ DirOpt.config_local .linux e = LinuxMod.config_local e
    ∧ DirOpt.data_home .linux e = LinuxMod.data_home e
    ∧ DirOpt.data_local .linux e = LinuxMod.data_local e
    ∧ DirOpt.desktop .linux e = LinuxMod.desktop e
    ∧ DirOpt.documents .linux e = LinuxMod.documents e
    ∧ DirOpt.downloads .linux e = LinuxMod.downloads e
    ∧ DirOpt.fonts .linux e = LinuxMod.fonts e
    ∧ DirOpt.music .linux e = LinuxMod.music e
    ∧ DirOpt.pictures .linux e = LinuxMod.pictures e
    ∧ DirOpt.preferences .linux e = LinuxMod.preferences e
    ∧ DirOpt.publicshare .linux e = LinuxMod.publicshare e
    ∧ DirOpt.runtime .linux e = LinuxMod.runtime e
    ∧ DirOpt.state_home .linux e = LinuxMod.state_home e
    ∧ DirOpt.templates .linux e = LinuxMod.templates e
    ∧ DirOpt.videos .linux e = LinuxMod.videos e :=
  ⟨rfl, rfl, rfl, rfl, rfl, rfl, rfl, rfl, rfl, rfl, rfl, rfl, rfl, rfl, rfl, rfl, rfl, rfl⟩

/-- `pureS` leaves the state untouched. -/
theorem readsOnly_pureS {α : Type} (a : α) : ReadsOnly (pureS a) := fun _ => rfl

/-- `bindS` preserves state when both components do. -/
theorem readsOnly_bindS {α β : Type} {m : ReadM α} {f : α → ReadM β}
    (hm : ReadsOnly m) (hf : ∀ a, ReadsOnly (f a)) : ReadsOnly (bindS m f) := by
  intro e
  show (f (m e).1 (m e).2).2 = e
  rw [hm e]
  exact hf _ e

/-- Reading an environment variable leaves the state untouched. -/
theorem readsOnly_getVarS (k : String) : ReadsOnly (getVarS k) := fun _ => rfl

/-- The user-database lookup leaves the state untouched. -/
theorem readsOnly_getUserDbHomeS : ReadsOnly getUserDbHomeS := fun _ => rfl

/-- The profile-directory call leaves the state untouched. -/
theorem readsOnly_getWinProfileDirS : ReadsOnly getWinProfileDirS := fun _ => rfl

/-- `getuid` leaves the state untouched. -/
theorem readsOnly_getUidS : ReadsOnly getUidS := fun _ => rfl

/-- `std::env::home_dir` leaves the state untouched. -/
theorem readsOnly_stdHomeDirS (p : Platform) : ReadsOnly (stdHomeDirS p) := by
  cases p <;>
    refine readsOnly_bindS (readsOnly_getVarS _) fun o => ?_ <;>
    cases ho : (o.filter (fun s => !(s == ""))) <;>
    intro e <;> rfl

/-- `or_else` preserves state when both branches do. -/
theorem readsOnly_orS {m fb : ReadM (Option String)} (hm : ReadsOnly m)
    (hfb : ReadsOnly fb) : ReadsOnly (orS m fb) :=
  readsOnly_bindS hm fun o => by
    cases o
    · exact hfb
    · exact readsOnly_pureS _

/-- `resolve_xdg_path` leaves the state untouched. -/
theorem readsOnly_rxS (p : Platform) (var : String) :
    ReadsOnly (DirOptS.resolve_xdg_pathS p var) :=
  readsOnly_bindS (readsOnly_getVarS _) fun _ => readsOnly_pureS _

/-- `Dir::home` leaves the state untouched. -/
theorem readsOnly_homeS (p : Platform) : ReadsOnly (DirOptS.homeS p) :=
  readsOnly_stdHomeDirS p

/-- `get_platform_default` leaves the state untouched. -/
theorem readsOnly_gpdS (p : Platform) (m w l : String) :
    ReadsOnly (DirOptS.get_platform_defaultS p m w l) := by
  cases p
  · exact readsOnly_bindS (readsOnly_homeS _) fun _ => readsOnly_pureS _
  · exact readsOnly_bindS (readsOnly_homeS _) fun _ => readsOnly_pureS _
  · exact readsOnly_getVarS _

/-- `get_platform_default_with_windows_subdir` leaves the state
untouched. -/
theorem readsOnly_gpdwsS (p : Platform) (m w ws l : String) :
    ReadsOnly (DirOptS.get_platform_default_wsS p m w ws l) := by
  cases p
  · exact readsOnly_bindS (readsOnly_homeS _) fun _ => readsOnly_pureS _
  · exact readsOnly_bindS (readsOnly_homeS _) fun _ => readsOnly_pureS _
  · exact readsOnly_bindS (readsOnly_getVarS _) fun _ => readsOnly_pureS _

/-- Every Option-policy public operation leaves the process state
untouched. -/
theorem readsOnly_resolveS (p : Platform) (k : DirectoryKind) :
    ReadsOnly (DirOptS.resolveS p k) := by
  cases k <;> cases p <;>
    first
      | exact readsOnly_homeS _
      | exact readsOnly_getVarS _
      | exact readsOnly_pureS _
      | exact readsOnly_bindS (readsOnly_homeS _) fun _ => readsOnly_pureS _
      | exact readsOnly_orS (readsOnly_rxS _ _) (readsOnly_gpdS _ _ _ _)
      | exact readsOnly_orS (readsOnly_rxS _ _) (readsOnly_gpdwsS _ _ _ _ _)
      | exact readsOnly_orS (readsOnly_rxS _ _)
          (readsOnly_bindS (readsOnly_homeS _) fun _ => readsOnly_pureS _)
      | exact readsOnly_orS (readsOnly_rxS _ _)
          (readsOnly_bindS (readsOnly_getVarS _) fun _ => readsOnly_pureS _)
      | exact readsOnly_orS (readsOnly_rxS _ _) (readsOnly_pureS _)

/-- The Result-policy home operation leaves the process state
untouched. -/
theorem readsOnly_homeRS (p : Platform) : ReadsOnly (DirResS.homeRS p) := by
  cases p
  · refine readsOnly_bindS (readsOnly_getVarS _) fun o => ?_
    cases o
    · refine readsOnly_bindS readsOnly_getUserDbHomeS fun u => ?_
      cases u <;> exact readsOnly_pureS _
    · exact readsOnly_pureS _
  · refine readsOnly_bindS (readsOnly_getVarS _) fun o => ?_
    cases o
    · refine readsOnly_bindS readsOnly_getUserDbHomeS fun u => ?_
      cases u <;> exact readsOnly_pureS _
    · exact readsOnly_pureS _
  · refine readsOnly_bindS (readsOnly_getVarS _) fun o => ?_
    cases o
    · refine readsOnly_bindS (readsOnly_getVarS _) fun d => ?_
      refine readsOnly_bindS (readsOnly_getVarS _) fun pa => ?_
      cases d <;> cases pa <;> exact readsOnly_pureS _
    · exact readsOnly_pureS _

/-- The Result-policy config operation leaves the process state
untouched. -/
theorem readsOnly_config_homeRS (p : Platform) : ReadsOnly (DirResS.config_homeRS p) := by
  refine readsOnly_bindS (readsOnly_getVarS _) fun o => ?_
  cases o
  · cases p
    · exact readsOnly_bindS (readsOnly_homeRS _) fun _ => readsOnly_pureS _
    · exact readsOnly_bindS (readsOnly_homeRS _) fun _ => readsOnly_pureS _
    · exact readsOnly_bindS (readsOnly_getVarS _) fun a => by
        cases a <;> exact readsOnly_pureS _
  · exact readsOnly_pureS _

/-- The Result-policy publicshare operation leaves the process state
untouched. -/
theorem readsOnly_publicshare_dirRS (p : Platform) :
    ReadsOnly (DirResS.publicshare_dirRS p) := by
  refine readsOnly_bindS (readsOnly_getVarS _) fun o => ?_
  cases o
  · cases p
    · exact readsOnly_bindS (readsOnly_homeRS _) fun _ => readsOnly_pureS _
    · exact readsOnly_bindS (readsOnly_homeRS _) fun _ => readsOnly_pureS _
    · exact readsOnly_pureS _
  · exact readsOnly_pureS _

/-- The Result-policy runtime operation leaves the process state
untouched. -/
theorem readsOnly_runtime_dirRS (p : Platform) :
    ReadsOnly (DirResS.runtime_dirRS p) := by
  refine readsOnly_bindS (readsOnly_getVarS _) fun o => ?_
  cases o
  · cases p
    · exact readsOnly_bindS readsOnly_getUidS fun _ => readsOnly_pureS _
    · exact readsOnly_bindS (readsOnly_getVarS _) fun t => by
        cases t <;> exact readsOnly_pureS _
    · exact readsOnly_bindS (readsOnly_getVarS _) fun t => by
        cases t <;> exact readsOnly_pureS _
  · exact readsOnly_pureS _

/-- The value of a read followed by a pure continuation. -/
theorem fst_bindS_pure {α β : Type} (m : ReadM α) (g : α → β) (e : Env) :
    (bindS m (fun a => pureS (g a)) e).1 = g ((m e).1) := rfl

/-- The state-passing `or_else` computes the plain `orO` of the two
branch values when the first branch is read-only. -/
theorem fst_orS (m fb : ReadM (Option String)) (hm : ReadsOnly m) (e : Env) :
    (orS m fb e).1 = orO ((m e).1) ((fb e).1) := by
  unfold orS bindS
  rw [hm e]
  cases ((m e).1) <;> rfl

/-- The state-passing override resolution computes the plain one. -/
theorem fst_rxS (p : Platform) (var : String) (e : Env) :
    (DirOptS.resolve_xdg_pathS p var e).1 = DirOpt.resolve_xdg_path p var e := rfl

/-- The state-passing `std::env::home_dir` computes the plain one. -/
theorem fst_stdHomeDirS (p : Platform) (e : Env) :
    (stdHomeDirS p e).1 = stdHomeDir p e := by
  cases p
  · cases hv : ((e.vars ("HOME")).filter (fun s => !(s == ""))) <;>
      simp [stdHomeDirS, stdHomeDir, bindS, getVarS, getUserDbHomeS, pureS, orO, hv]
  · cases hv : ((e.vars ("HOME")).filter (fun s => !(s == ""))) <;>
      simp [stdHomeDirS, stdHomeDir, bindS, getVarS, getUserDbHomeS, pureS, orO, hv]
  · cases hv : ((e.vars ("USERPROFILE")).filter (fun s => !(s == ""))) <;>
      simp [stdHomeDirS, stdHomeDir, bindS, getVarS, getWinProfileDirS, pureS, orO, hv]

/-- The state-passing `Dir::home` computes the plain one. -/
theorem fst_homeS (p : Platform) (e : Env) :
    (DirOptS.homeS p e).1 = DirOpt.home p e := fst_stdHomeDirS p e

/-- A home read with a pure continuation computes the plain
composition. -/
theorem fst_bind_homeS_pure (p : Platform) (g : Option String → Option String) (e : Env) :
    (bindS (DirOptS.homeS p) (fun h => pureS (g h)) e).1 = g (DirOpt.home p e) := by
  rw [fst_bindS_pure (DirOptS.homeS p) g e, fst_homeS]

/-- The state-passing `get_platform_default` computes the plain one. -/
theorem fst_gpdS (p : Platform) (m w l : String) (e : Env) :
    (DirOptS.get_platform_defaultS p m w l e).1 = DirOpt.get_platform_default p m w l e := by
  cases p
  · exact fst_bind_homeS_pure .linux (fun h => h.map (fun x => pathJoin .linux x l)) e
  · exact fst_bind_homeS_pure .macos (fun h => h.map (fun x => pathJoin .macos x m)) e
  · rfl

/-- The state-passing `get_platform_default_with_windows_subdir`
computes the plain one. -/
theorem fst_gpdwsS (p : Platform) (m w ws l : String) (e : Env) :
    (DirOptS.get_platform_default_wsS p m w ws l e).1
      = DirOpt.get_platform_default_with_windows_subdir p m w ws l e := by
  cases p
  · exact fst_bind_homeS_pure .linux (fun h => h.map (fun x => pathJoin .linux x l)) e
  · exact fst_bind_homeS_pure .macos (fun h => h.map (fun x => pathJoin .macos x m)) e
  · rfl

/-- The state-passing form of every Option-policy public operation
computes the plain one. -/
theorem fst_resolveS (p : Platform) (k : DirectoryKind) (e : Env) :
    (DirOptS.resolveS p k e).1 = DirOpt.resolve p k e := by
  cases k
  case home => exact fst_stdHomeDirS p e
  case binHome =>
      cases p
      · simp only [DirOptS.resolveS, DirOpt.resolve, DirOpt.bin_home]
        rw [fst_orS _ _ (readsOnly_rxS _ _) e, fst_rxS]
        exact congrArg (orO _)
          (fst_bind_homeS_pure .linux (fun h => h.map (fun x => pathJoin .linux x (".local/bin"))) e)
      · simp only [DirOptS.resolveS, DirOpt.resolve, DirOpt.bin_home]
        rw [fst_orS _ _ (readsOnly_rxS _ _) e, fst_rxS]
        exact congrArg (orO _)
          (fst_bind_homeS_pure .macos (fun h => h.map (fun x => pathJoin .macos x (".local/bin"))) e)
      · simp only [DirOptS.resolveS, DirOpt.resolve, DirOpt.bin_home]
        rw [fst_orS _ _ (readsOnly_rxS _ _) e, fst_rxS]
        rfl
  case cacheHome =>
      rw [DirOptS.resolveS, DirOpt.resolve, DirOpt.cache_home,
        fst_orS _ _ (readsOnly_rxS _ _) e, fst_rxS, fst_gpdS]
  case configHome =>
      rw [DirOptS.resolveS, DirOpt.resolve, DirOpt.config_home,
        fst_orS _ _ (readsOnly_rxS _ _) e, fst_rxS, fst_gpdS]
  case configLocal =>
      cases p
      · simp only [DirOptS.resolveS, DirOpt.resolve, DirOpt.config_local, DirOpt.config_home]
        rw [fst_orS _ _ (readsOnly_rxS _ _) e, fst_rxS, fst_gpdS]
      · simp only [DirOptS.resolveS, DirOpt.resolve, DirOpt.config_local, DirOpt.config_home]
        rw [fst_orS _ _ (readsOnly_rxS _ _) e, fst_rxS, fst_gpdS]
      · rfl
  case dataHome =>
      rw [DirOptS.resolveS, DirOpt.resolve, DirOpt.data_home,
        fst_orS _ _ (readsOnly_rxS _ _) e, fst_rxS, fst_gpdS]
  case dataLocal =>
      cases p
      · simp only [DirOptS.resolveS, DirOpt.resolve, DirOpt.data_local, DirOpt.data_home]
        rw [fst_orS _ _ (readsOnly_rxS _ _) e, fst_rxS, fst_gpdS]
      · simp only [DirOptS.resolveS, DirOpt.resolve, DirOpt.data_local, DirOpt.data_home]
        rw [fst_orS _ _ (readsOnly_rxS _ _) e, fst_rxS, fst_gpdS]
      · rfl
  case stateHome =>
      rw [DirOptS.resolveS, DirOpt.resolve, DirOpt.state_home,
        fst_orS _ _ (readsOnly_rxS _ _) e, fst_rxS, fst_gpdS]
  case desktop =>
      rw [DirOptS.resolveS, DirOpt.resolve, DirOpt.desktop,
        fst_orS _ _ (readsOnly_rxS _ _) e, fst_rxS, fst_gpdwsS]
  case documents =>
      rw [DirOptS.resolveS, DirOpt.resolve, DirOpt.documents,
        fst_orS _ _ (readsOnly_rxS _ _) e, fst_rxS, fst_gpdwsS]
  case downloads =>
      rw [DirOptS.resolveS, DirOpt.resolve, DirOpt.downloads,
        fst_orS _ _ (readsOnly_rxS _ _) e, fst_rxS, fst_gpdwsS]
  case music =>
      rw [DirOptS.resolveS, DirOpt.resolve, DirOpt.music,
        fst_orS _ _ (readsOnly_rxS _ _) e, fst_rxS, fst_gpdwsS]
  case pictures =>
      rw [DirOptS.resolveS, DirOpt.resolve, DirOpt.pictures,
        fst_orS _ _ (readsOnly_rxS _ _) e, fst_rxS, fst_gpdwsS]
  case videos =>
      rw [DirOptS.resolveS, DirOpt.resolve, DirOpt.videos,
        fst_orS _ _ (readsOnly_rxS _ _) e, fst_rxS, fst_gpdwsS]
  case templates =>
      rw [DirOptS.resolveS, DirOpt.resolve, DirOpt.templates,
        fst_orS _ _ (readsOnly_rxS _ _) e, fst_rxS, fst_gpdwsS]
  case publicshare =>
      cases p
      · simp only [DirOptS.resolveS, DirOpt.resolve, DirOpt.publicshare]
        rw [fst_orS _ _ (readsOnly_rxS _ _) e, fst_rxS]
        exact congrArg (orO _)
          (fst_bind_homeS_pure .linux (fun h => h.map (fun x => pathJoin .linux x ("Public"))) e)
      · simp only [DirOptS.resolveS, DirOpt.resolve, DirOpt.publicshare]
        rw [fst_orS _ _ (readsOnly_rxS _ _) e, fst_rxS]
        exact congrArg (orO _)
          (fst_bind_homeS_pure .macos (fun h => h.map (fun x => pathJoin .macos x ("Public"))) e)
      · simp only [DirOptS.resolveS, DirOpt.resolve, DirOpt.publicshare]
        rw [fst_orS _ _ (readsOnly_rxS _ _) e, fst_rxS]
        rfl
  case runtime =>
      cases p
      · simp only [DirOptS.resolveS, DirOpt.resolve, DirOpt.runtime]
        rw [fst_orS _ _ (readsOnly_rxS _ _) e, fst_rxS]
        rfl
      · simp only [DirOptS.resolveS, DirOpt.resolve, DirOpt.runtime]
        rw [fst_orS _ _ (readsOnly_rxS _ _) e, fst_rxS]
        rfl
      · simp only [DirOptS.resolveS, DirOpt.resolve, DirOpt.runtime]
        rw [fst_orS _ _ (readsOnly_rxS _ _) e, fst_rxS]
        rfl
  case fonts =>
      cases p
      · exact fst_bind_homeS_pure .linux (fun h => h.map (fun x => pathJoin .linux x (".local/share/fonts"))) e
      · exact fst_bind_homeS_pure .macos (fun h => h.map (fun x => pathJoin .macos x ("Library/Fonts"))) e
      · rfl
  case preferences =>
      cases p
      · simp only [DirOptS.resolveS, DirOpt.resolve, DirOpt.preferences, DirOpt.config_home]
        rw [fst_orS _ _ (readsOnly_rxS _ _) e, fst_rxS, fst_gpdS]
      · exact fst_bind_homeS_pure .macos (fun h => h.map (fun x => pathJoin .macos x ("Library/Preferences"))) e
      · simp only [DirOptS.resolveS, DirOpt.resolve, DirOpt.preferences, DirOpt.config_home]
        rw [fst_orS _ _ (readsOnly_rxS _ _) e, fst_rxS, fst_gpdS]

/-- C9: every public directory operation is deterministic in the process
state it reads and mutates nothing: in the state-passing embedding, each
Option-policy operation (all kinds, all platforms) and each embedded
Result-policy operation returns the state unchanged, a second call after
the first returns the identical result, and the value computed agrees
with the plain (pure) embedding of src/lib.rs. -/
theorem c9_operations_read_only_and_deterministic (p : Platform) (k : DirectoryKind) (e : Env) :
    (DirOptS.resolveS p k e).2 = e
    ∧ (DirOptS.resolveS p k ((DirOptS.resolveS p k e).2)).1 = (DirOptS.resolveS p k e).1
    ∧ (DirOptS.resolveS p k e).1 = DirOpt.resolve p k e
    ∧ (DirResS.homeRS p e).2 = e
    ∧ (DirResS.homeRS p ((DirResS.homeRS p e).2)).1 = (DirResS.homeRS p e).1
    ∧ (DirResS.config_homeRS p e).2 = e
    ∧ (DirResS.publicshare_dirRS p e).2 = e
    ∧ (DirResS.runtime_dirRS p e).2 = e
    ∧ (DirResS.runtime_dirRS p ((DirResS.runtime_dirRS p e).2)).1 = (DirResS.runtime_dirRS p e).1 := by
  refine ⟨readsOnly_resolveS p k e, ?_, fst_resolveS p k e, readsOnly_homeRS p e, ?_,
    readsOnly_config_homeRS p e, readsOnly_publicshare_dirRS p e,
    readsOnly_runtime_dirRS p e, ?_⟩
  · rw [readsOnly_resolveS p k e]
  · rw [readsOnly_homeRS p e]
  · rw [readsOnly_runtime_dirRS p e]
